import Mathlib

/-!
Verification of the tintui color utility (src/main.py) against its
specification.  The program is a curses loop around a small color codec
(hex `#rrggbb` ↔ 0–1000 RGB triplets), a bounded most-recent-first history
of hex strings, and JSON persistence of that history.

Strings are modelled as `List Char`.  Python's arbitrary-precision `int`
is modelled as `ℤ`.  Python's `round` builtin (round-half-to-even) applied
to the float expressions `c / 255 * 1000` and `v / 1000 * 255` is modelled
by half-even rounding of the exact rational: for every reachable input
(pair values in [-15, 255] for the first expression, validated channels in
[0, 1000] for the second) the IEEE-double evaluation either is exact or has
error far smaller than the distance to the nearest half-integer boundary —
except at the exact ties v ∈ {100,300,500,700,900} of the second
expression, where the double product evaluates to the exact half-integer —
so rounding the exact rational with ties-to-even agrees with the Python
computation at every such input.
-/

set_option maxRecDepth 100000

namespace Tintui

/-- Source constant `HISTORY_MAX = 200`. -/
def HISTORY_MAX : ℕ := 200

/-- Source constant `INPUT_PANEL_HEIGHT = 12`. -/
def INPUT_PANEL_HEIGHT : ℤ := 12

/-- Source constant `INDENT_Y = 1`. -/
def INDENT_Y : ℤ := 1

/-- Source constant `SWAP_PAGE_KEYS = True`. -/
def SWAP_PAGE_KEYS : Bool := true

/-- Source: `hist_start_y = INDENT_Y + 7` (render section of `main`). -/
def hist_start_y : ℤ := INDENT_Y + 7

/-- Source: `available_lines = INPUT_PANEL_HEIGHT - hist_start_y - 1`
(render section of `main`); evaluates to 3. -/
def available_lines : ℤ := INPUT_PANEL_HEIGHT - hist_start_y - 1

/-- Python `round` on the exact rational `num / den` (with `den > 0`):
round half to even (banker's rounding), as the CPython builtin does.
`f` is the floor of the quotient and `num - f * den` its remainder in
`[0, den)`; doubling the remainder and comparing with `den` classifies the
fractional part against 1/2. -/
def pyRound (num den : ℤ) : ℤ :=
  let f : ℤ := num.fdiv den
  let r2 : ℤ := 2 * (num - f * den)
  if r2 < den then f
  else if den < r2 then f + 1
  else if f % 2 = 0 then f else f + 1

/-- Round half away from zero on the exact rational `num / den` (with
`den > 0`) — the rounding rule the specification prescribes.  For `q ≥ 0`
this is `⌊q + 1/2⌋`, for `q < 0` it is `⌈q - 1/2⌉`.  Declared for
comparison with the code's behaviour; it is not part of the source. -/
def roundHalfAway (num den : ℤ) : ℤ :=
  if 0 ≤ num then (2 * num + den).fdiv (2 * den)
  else -((-(2 * num - den)).fdiv (2 * den))

/-- Source: `round(r / 255 * 1000)` (lines 58–60 of main.py); the exact
rational `r / 255 * 1000` is `(r * 1000) / 255`. -/
def scale255to1000 (c : ℤ) : ℤ := pyRound (c * 1000) 255

/-- Source: `round(r / 1000 * 255)` (lines 66–68 of main.py); the exact
rational `r / 1000 * 255` is `(r * 255) / 1000`. -/
def scale1000to255 (v : ℤ) : ℤ := pyRound (v * 255) 1000

/-- The two `ValueError` sites of the codec.
`invalidFormat` is "HEX должен быть в формате #rrggbb" (length ≠ 6 after
stripping `#`), `invalidDigits` is "Недопустимые символы в HEX" (a pair
rejected by `int(_, 16)`), `outOfRange` is "Значения RGB должны быть в
диапазоне 0–1000". -/
inductive CodecErr where
  | invalidFormat
  | invalidDigits
  | outOfRange
deriving DecidableEq, Repr

instance {ε α : Type} [DecidableEq ε] [DecidableEq α] :
    DecidableEq (Except ε α) := fun x y =>
  match x, y with
  | .ok a, .ok b =>
    if h : a = b then .isTrue (by rw [h]) else .isFalse (by simp [h])
  | .error a, .error b =>
    if h : a = b then .isTrue (by rw [h]) else .isFalse (by simp [h])
  | .ok _, .error _ => .isFalse (by simp)
  | .error _, .ok _ => .isFalse (by simp)

/-- Hexadecimal digit in Python's sense for base 16: `0`–`9` (codes 48–57),
`a`–`f` (97–102), `A`–`F` (65–70). -/
def isHexDig (c : Char) : Bool :=
  (48 ≤ c.toNat ∧ c.toNat ≤ 57) ∨ (97 ≤ c.toNat ∧ c.toNat ≤ 102) ∨
    (65 ≤ c.toNat ∧ c.toNat ≤ 70)

/-- Value of a hexadecimal digit. -/
def hexDigVal (c : Char) : ℤ :=
  if 48 ≤ c.toNat ∧ c.toNat ≤ 57 then (c.toNat : ℤ) - 48
  else if 97 ≤ c.toNat then (c.toNat : ℤ) - 97 + 10
  else (c.toNat : ℤ) - 65 + 10

/-- ASCII whitespace accepted (and stripped) by Python's `int` and
`str.strip`.  (CPython also accepts further Unicode whitespace; the
interactive input path only produces ASCII 32–126, so that extension is
irrelevant here.) -/
def isPySpace (c : Char) : Bool :=
  c = ' ' ∨ c = '\t' ∨ c = '\n' ∨ c = '\x0b' ∨ c = '\x0c' ∨ c = '\r'

/-- Python `int(s, 16)` restricted to the two-character slices taken by
`hex_to_1000`.  CPython accepts optional surrounding whitespace, an
optional sign, an optional `0x`/`0X` prefix and then a nonempty digit run;
for a two-character string this leaves exactly: two hex digits, a sign
followed by a digit, or one digit padded by one whitespace character.
(`"0x"` alone, `"_d"`, `"d_"` are rejected: no digit follows the prefix
resp. the underscore is not between digits.) -/
def pyIntHex2 (a b : Char) : Option ℤ :=
  if isHexDig a ∧ isHexDig b then some (16 * hexDigVal a + hexDigVal b)
  else if a = '+' ∧ isHexDig b then some (hexDigVal b)
  else if a = '-' ∧ isHexDig b then some (-(hexDigVal b))
  else if isPySpace a ∧ isHexDig b then some (hexDigVal b)
  else if isHexDig a ∧ isPySpace b then some (hexDigVal a)
  else none

/-- Body of `hex_to_1000` after the `lstrip("#")`: require exactly six
characters, parse the three 2-character slices with `int(_, 16)` (the
first failure raises "Недопустимые символы в HEX"), then rescale each
channel. -/
def hexBody : List Char → Except CodecErr (ℤ × ℤ × ℤ)
  | [a, b, c, d, e, f] =>
    match pyIntHex2 a b, pyIntHex2 c d, pyIntHex2 e f with
    | some r, some g, some b' =>
      .ok (scale255to1000 r, scale255to1000 g, scale255to1000 b')
    | _, _, _ => .error .invalidDigits
  | _ => .error .invalidFormat

/-- Source `hex_to_1000` (main.py lines 48–61): `str.lstrip("#")` removes
every leading `#`, then the six remaining characters are parsed and
rescaled. -/
def hex_to_1000 (hex_color : List Char) : Except CodecErr (ℤ × ℤ × ℤ) :=
  hexBody (hex_color.dropWhile (· = '#'))

/-- Lowercase hexadecimal digit character for a value in [0, 15]. -/
def hexDigitChar (n : ℕ) : Char :=
  if n < 10 then Char.ofNat ('0'.toNat + n) else Char.ofNat ('a'.toNat + n - 10)

/-- Python `f"{r:02x}"` for `r` in [0, 255]: two lowercase hex digits.
(The format check in `rgb1000_to_hex` guarantees the argument is a byte, so
the wider-than-two-digit and negative cases of the format spec are
unreachable.) -/
def toHexPair (r : ℤ) : List Char :=
  [hexDigitChar (r.toNat / 16), hexDigitChar (r.toNat % 16)]

/-- Source `rgb1000_to_hex` (main.py lines 63–69): range-check the three
channels against [0, 1000], rescale each to a byte, format as
`#rrggbb`. -/
def rgb1000_to_hex (r g b : ℤ) : Except CodecErr (List Char) :=
  if 0 ≤ r ∧ r ≤ 1000 ∧ 0 ≤ g ∧ g ≤ 1000 ∧ 0 ≤ b ∧ b ≤ 1000 then
    .ok ('#' :: (toHexPair (scale1000to255 r) ++ toHexPair (scale1000to255 g)
          ++ toHexPair (scale1000to255 b)))
  else .error .outOfRange

example : hex_to_1000 "#ff0000".toList = .ok (1000, 0, 0) := by decide
example : hex_to_1000 "#808080".toList = .ok (502, 502, 502) := by decide
example : hex_to_1000 "#12".toList = .error .invalidFormat := by decide
example : hex_to_1000 "#gggggg".toList = .error .invalidDigits := by decide
example : hex_to_1000 "#+0+0+0".toList = .ok (0, 0, 0) := by decide
example : rgb1000_to_hex 1000 0 0 = .ok "#ff0000".toList := by decide
example : rgb1000_to_hex 1001 0 0 = .error .outOfRange := by decide
example : scale1000to255 300 = 76 := by decide
example : roundHalfAway (300 * 255) 1000 = 77 := by decide
example : scale255to1000 (-1) = -4 := by decide
example : hex_to_1000 "#-1-1-1".toList = .ok (-4, -4, -4) := by decide

/-! ### Channel arithmetic lemmas (exhaustive checks on the byte and
scaled ranges) -/

theorem scale255to1000_away_nat :
    ∀ c : ℕ, c < 256 → scale255to1000 (c : ℤ) = roundHalfAway ((c : ℤ) * 1000) 255 := by
  decide

theorem scale1000to255_even_nat :
    ∀ v : ℕ, v < 1001 →
      scale1000to255 (v : ℤ) =
        if (v : ℤ) = 300 ∨ (v : ℤ) = 700 then roundHalfAway ((v : ℤ) * 255) 1000 - 1
        else roundHalfAway ((v : ℤ) * 255) 1000 := by
  decide

theorem roundtrip_byte_nat :
    ∀ c : ℕ, c < 256 → scale1000to255 (scale255to1000 (c : ℤ)) = (c : ℤ) := by
  decide

theorem scale255to1000_range_nat :
    ∀ c : ℕ, c < 256 → 0 ≤ scale255to1000 (c : ℤ) ∧ scale255to1000 (c : ℤ) ≤ 1000 := by
  decide

theorem roundtrip_byte (z : ℤ) (h0 : 0 ≤ z) (h1 : z ≤ 255) :
    scale1000to255 (scale255to1000 z) = z := by
  lift z to ℕ using h0
  exact roundtrip_byte_nat _ (by omega)

theorem scale255to1000_range (z : ℤ) (h0 : 0 ≤ z) (h1 : z ≤ 255) :
    0 ≤ scale255to1000 z ∧ scale255to1000 z ≤ 1000 := by
  lift z to ℕ using h0
  exact scale255to1000_range_nat _ (by omega)

/-! ### Hex digit lemmas -/

theorem hexDigVal_bounds {c : Char} (h : isHexDig c) :
    0 ≤ hexDigVal c ∧ hexDigVal c ≤ 15 := by
  unfold isHexDig at h
  rw [decide_eq_true_eq] at h
  unfold hexDigVal
  split_ifs <;> omega

theorem isHexDig_ne_hash {c : Char} (h : isHexDig c) : c ≠ '#' := by
  rintro rfl
  exact absurd h (by decide)

theorem pyIntHex2_hex {a b : Char} (ha : isHexDig a) (hb : isHexDig b) :
    pyIntHex2 a b = some (16 * hexDigVal a + hexDigVal b) := by
  simp [pyIntHex2, ha, hb]

theorem byteVal_bounds {a b : Char} (ha : isHexDig a) (hb : isHexDig b) :
    0 ≤ 16 * hexDigVal a + hexDigVal b ∧ 16 * hexDigVal a + hexDigVal b ≤ 255 := by
  have h1 := hexDigVal_bounds ha
  have h2 := hexDigVal_bounds hb
  omega

/-- Claim C1 counterexample: `scaledToHex` does not use
round-half-away-from-zero.  At channel 300 the exact value is
`300 / 1000 * 255 = 76.5`; half-away would give 77, but the code (Python's
half-even `round`) gives 76, so `rgb1000_to_hex 300 0 0` is `#4c0000`
(0x4c = 76), not `#4d0000`. -/
theorem c1_counterexample :
    scale1000to255 300 = 76 ∧ roundHalfAway (300 * 255) 1000 = 77 ∧
      rgb1000_to_hex 300 0 0 = .ok "#4c0000".toList := by
  refine ⟨by decide, by decide, by decide⟩

/-- Claim C1 (amended): `hexToScaled` maps every byte channel c in [0,255]
to the nearest integer of `c/255*1000` — no ties occur on that range, so
this agrees with round-half-away-from-zero; `scaledToHex` maps every
scaled channel v in [0,1000] to `v/1000*255` rounded half-to-even (the
Python `round` builtin), which agrees with round-half-away-from-zero
except at the exact ties v = 300 and v = 700, where it returns one less. -/
theorem c1_rounding :
    (∀ c : ℤ, 0 ≤ c → c ≤ 255 → scale255to1000 c = roundHalfAway (c * 1000) 255) ∧
    (∀ v : ℤ, 0 ≤ v → v ≤ 1000 →
      scale1000to255 v =
        if v = 300 ∨ v = 700 then roundHalfAway (v * 255) 1000 - 1
        else roundHalfAway (v * 255) 1000) := by
  constructor
  · intro c h0 h1
    lift c to ℕ using h0
    exact scale255to1000_away_nat _ (by omega)
  · intro v h0 h1
    lift v to ℕ using h0
    exact scale1000to255_even_nat _ (by omega)

/-- Witness for C1: the amended statement evaluated at channels 128 (no
tie), 300 (tie, rounded down to even) and 299 (no tie). -/
theorem c1_rounding_witness :
    scale255to1000 128 = roundHalfAway (128 * 1000) 255 ∧
    scale1000to255 300 = roundHalfAway (300 * 255) 1000 - 1 ∧
    scale1000to255 299 = roundHalfAway (299 * 255) 1000 := by
  refine ⟨c1_rounding.1 128 (by decide) (by decide), ?_, ?_⟩
  · have h := c1_rounding.2 300 (by decide) (by decide)
    simpa using h
  · have h := c1_rounding.2 299 (by decide) (by decide)
    simpa using h

theorem dropWhile_cons_of_ne_hash {a : Char} {l : List Char} (h : a ≠ '#') :
    (a :: l).dropWhile (· = '#') = a :: l := by
  simp [List.dropWhile_cons, h]

theorem hex_to_1000_hash_cons {a : Char} {l : List Char} (h : a ≠ '#') :
    hex_to_1000 ('#' :: a :: l) = hexBody (a :: l) := by
  unfold hex_to_1000
  simp [List.dropWhile_cons, h]

/-- Claim C2: per-channel round-trip drift is at most 1 unit on the 0–255
scale — in fact the round trip is exact: `scale1000to255 ∘ scale255to1000`
is the identity on [0,255], so `rgb1000_to_hex` applied to
`hex_to_1000 h` reproduces the bytes of every valid hex string `h`
exactly (rendered in lowercase).  The six pinned values hold. -/
theorem c2_roundtrip :
    (∀ z : ℤ, 0 ≤ z → z ≤ 255 →
      (scale1000to255 (scale255to1000 z) - z).natAbs ≤ 1 ∧
      scale1000to255 (scale255to1000 z) = z) ∧
    (∀ a b c d e f : Char, isHexDig a → isHexDig b → isHexDig c → isHexDig d →
      isHexDig e → isHexDig f →
      (hex_to_1000 ('#' :: [a, b, c, d, e, f])).bind
          (fun t => rgb1000_to_hex t.1 t.2.1 t.2.2) =
        .ok ('#' :: (toHexPair (16 * hexDigVal a + hexDigVal b) ++
          toHexPair (16 * hexDigVal c + hexDigVal d) ++
          toHexPair (16 * hexDigVal e + hexDigVal f)))) ∧
    hex_to_1000 "#ff0000".toList = .ok (1000, 0, 0) ∧
    hex_to_1000 "#000000".toList = .ok (0, 0, 0) ∧
    hex_to_1000 "#ffffff".toList = .ok (1000, 1000, 1000) ∧
    hex_to_1000 "#808080".toList = .ok (502, 502, 502) ∧
    rgb1000_to_hex 1000 0 0 = .ok "#ff0000".toList ∧
    rgb1000_to_hex 0 0 0 = .ok "#000000".toList := by
  refine ⟨?_, ?_, by decide, by decide, by decide, by decide, by decide, by decide⟩
  · intro z h0 h1
    have h := roundtrip_byte z h0 h1
    exact ⟨by omega, h⟩
  · intro a b c d e f ha hb hc hd he hf
    rw [hex_to_1000_hash_cons (isHexDig_ne_hash ha)]
    rw [show hexBody [a, b, c, d, e, f] =
        .ok (scale255to1000 (16 * hexDigVal a + hexDigVal b),
             scale255to1000 (16 * hexDigVal c + hexDigVal d),
             scale255to1000 (16 * hexDigVal e + hexDigVal f)) by
      simp [hexBody, pyIntHex2_hex ha hb, pyIntHex2_hex hc hd, pyIntHex2_hex he hf]]
    have r1 := byteVal_bounds ha hb
    have r2 := byteVal_bounds hc hd
    have r3 := byteVal_bounds he hf
    have s1 := scale255to1000_range _ r1.1 r1.2
    have s2 := scale255to1000_range _ r2.1 r2.2
    have s3 := scale255to1000_range _ r3.1 r3.2
    simp only [Except.bind]
    rw [show rgb1000_to_hex (scale255to1000 (16 * hexDigVal a + hexDigVal b))
        (scale255to1000 (16 * hexDigVal c + hexDigVal d))
        (scale255to1000 (16 * hexDigVal e + hexDigVal f)) =
        .ok ('#' ::
          (toHexPair (scale1000to255 (scale255to1000 (16 * hexDigVal a + hexDigVal b))) ++
           toHexPair (scale1000to255 (scale255to1000 (16 * hexDigVal c + hexDigVal d))) ++
           toHexPair (scale1000to255 (scale255to1000 (16 * hexDigVal e + hexDigVal f))))) by
      unfold rgb1000_to_hex
      rw [if_pos ⟨s1.1, s1.2, s2.1, s2.2, s3.1, s3.2⟩]]
    rw [roundtrip_byte _ r1.1 r1.2, roundtrip_byte _ r2.1 r2.2,
      roundtrip_byte _ r3.1 r3.2]

/-- Witness for C2: the quantified clauses evaluated at channel 128 and at
the hex digits of `#ff8001`. -/
theorem c2_roundtrip_witness :
    ((scale1000to255 (scale255to1000 128) - 128).natAbs ≤ 1 ∧
      scale1000to255 (scale255to1000 128) = 128) ∧
    (hex_to_1000 ('#' :: ['f', 'f', '8', '0', '0', '1'])).bind
        (fun t => rgb1000_to_hex t.1 t.2.1 t.2.2) =
      .ok ('#' :: (toHexPair (16 * hexDigVal 'f' + hexDigVal 'f') ++
        toHexPair (16 * hexDigVal '8' + hexDigVal '0') ++
        toHexPair (16 * hexDigVal '0' + hexDigVal '1'))) := by
  refine ⟨c2_roundtrip.1 128 (by decide) (by decide), ?_⟩
  exact c2_roundtrip.2.1 'f' 'f' '8' '0' '0' '1' (by decide) (by decide)
    (by decide) (by decide) (by decide) (by decide)

theorem hexBody_invalidFormat (t : List Char) :
    hexBody t = .error .invalidFormat ↔ t.length ≠ 6 := by
  rcases t with _ | ⟨a, t⟩; · simp [hexBody]
  rcases t with _ | ⟨b, t⟩; · simp [hexBody]
  rcases t with _ | ⟨c, t⟩; · simp [hexBody]
  rcases t with _ | ⟨d, t⟩; · simp [hexBody]
  rcases t with _ | ⟨e, t⟩; · simp [hexBody]
  rcases t with _ | ⟨f, t⟩; · simp [hexBody]
  rcases t with _ | ⟨g, t⟩
  · rcases h1 : pyIntHex2 a b with _ | r <;>
      rcases h2 : pyIntHex2 c d with _ | g' <;>
        rcases h3 : pyIntHex2 e f with _ | b' <;>
          simp [hexBody, h1, h2, h3]
  · simp [hexBody]

theorem hexBody_invalidDigits (t : List Char) :
    hexBody t = .error .invalidDigits ↔
      ∃ a b c d e f, t = [a, b, c, d, e, f] ∧
        (pyIntHex2 a b = none ∨ pyIntHex2 c d = none ∨ pyIntHex2 e f = none) := by
  rcases t with _ | ⟨a, t⟩; · simp [hexBody]
  rcases t with _ | ⟨b, t⟩; · simp [hexBody]
  rcases t with _ | ⟨c, t⟩; · simp [hexBody]
  rcases t with _ | ⟨d, t⟩; · simp [hexBody]
  rcases t with _ | ⟨e, t⟩; · simp [hexBody]
  rcases t with _ | ⟨f, t⟩; · simp [hexBody]
  rcases t with _ | ⟨g, t⟩
  · constructor
    · intro h
      refine ⟨a, b, c, d, e, f, rfl, ?_⟩
      by_contra hc
      push_neg at hc
      obtain ⟨hn1, hn2, hn3⟩ := hc
      obtain ⟨r, hr1⟩ := Option.ne_none_iff_exists'.mp hn1
      obtain ⟨g', hr2⟩ := Option.ne_none_iff_exists'.mp hn2
      obtain ⟨b', hr3⟩ := Option.ne_none_iff_exists'.mp hn3
      simp [hexBody, hr1, hr2, hr3] at h
    · rintro ⟨a', b', c', d', e', f', heq, hbad⟩
      obtain ⟨rfl, rfl, rfl, rfl, rfl, rfl⟩ :
          a = a' ∧ b = b' ∧ c = c' ∧ d = d' ∧ e = e' ∧ f = f' := by
        simpa using heq
      rcases hbad with h | h | h
      · simp [hexBody, h]
      · rcases hx : pyIntHex2 a b with _ | r <;> simp [hexBody, hx, h]
      · rcases hx : pyIntHex2 a b with _ | r <;>
          rcases hy : pyIntHex2 c d with _ | g2 <;> simp [hexBody, hx, hy, h]
  · simp [hexBody]

/-- Claim C7 counterexample: `int(pair, 16)` also accepts signed and
whitespace-padded pairs, so pairs that are not two hexadecimal digits do
not necessarily fail: `"#+0+0+0"` is accepted and yields `(0,0,0)`, and
`"#-1-1-1"` is accepted and yields negative channels `(-4,-4,-4)` outside
the advertised codomain. -/
theorem c7_counterexample :
    hex_to_1000 "#+0+0+0".toList = .ok (0, 0, 0) ∧
    isHexDig '+' = false ∧
    hex_to_1000 "#-1-1-1".toList = .ok (-4, -4, -4) := by
  refine ⟨by decide, by decide, by decide⟩

/-- Claim C7 (amended): after stripping every leading `#`,
`hex_to_1000` fails with `invalidFormat` exactly when the remaining length
is not 6, and with `invalidDigits` exactly when some 2-character pair is
rejected by Python's base-16 integer parser (which accepts two hex digits,
a sign followed by one digit, or one digit padded by whitespace — not only
pairs of hexadecimal digits); `rgb1000_to_hex` fails with `outOfRange`
exactly when some channel lies outside [0,1000].  The pinned examples
`"#12"`, `"#gggggg"` and `(1001,0,0)` fail as documented. -/
theorem c7_errors :
    (∀ s : List Char, hex_to_1000 s = .error .invalidFormat ↔
        (s.dropWhile (· = '#')).length ≠ 6) ∧
    (∀ s : List Char, hex_to_1000 s = .error .invalidDigits ↔
        ∃ a b c d e f, s.dropWhile (· = '#') = [a, b, c, d, e, f] ∧
          (pyIntHex2 a b = none ∨ pyIntHex2 c d = none ∨ pyIntHex2 e f = none)) ∧
    (∀ r g b : ℤ, rgb1000_to_hex r g b = .error .outOfRange ↔
        ¬(0 ≤ r ∧ r ≤ 1000 ∧ 0 ≤ g ∧ g ≤ 1000 ∧ 0 ≤ b ∧ b ≤ 1000)) ∧
    hex_to_1000 "#12".toList = .error .invalidFormat ∧
    hex_to_1000 "#gggggg".toList = .error .invalidDigits ∧
    rgb1000_to_hex 1001 0 0 = .error .outOfRange := by
  refine ⟨?_, ?_, ?_, by decide, by decide, by decide⟩
  · intro s
    exact hexBody_invalidFormat _
  · intro s
    exact hexBody_invalidDigits _
  · intro r g b
    unfold rgb1000_to_hex
    split_ifs with h <;> simp [h]

theorem dropWhile_hash_replicate (n : ℕ) (s : List Char) :
    (List.replicate n '#' ++ s).dropWhile (· = '#') = s.dropWhile (· = '#') := by
  induction n with
  | zero => simp
  | succ n ih => simp [List.replicate_succ, List.dropWhile_cons, ih]

/-- Claim C10: `lstrip("#")` strips every leading `#`, so for every string
of six valid hex digits, prefixing any number of `#` characters (including
none) gives the same accepted result as the single-`#` form. -/
theorem c10_lstrip :
    ∀ (n : ℕ) (s : List Char), s.length = 6 → (∀ c ∈ s, isHexDig c) →
      hex_to_1000 (List.replicate n '#' ++ s) = hex_to_1000 ('#' :: s) ∧
      ∃ t, hex_to_1000 ('#' :: s) = .ok t := by
  intro n s hlen hdig
  obtain ⟨a, b, c, d, e, f, rfl⟩ : ∃ a b c d e f, s = [a, b, c, d, e, f] := by
    rcases s with _ | ⟨a, _ | ⟨b, _ | ⟨c, _ | ⟨d, _ | ⟨e, _ | ⟨f, _ | ⟨g, rest⟩⟩⟩⟩⟩⟩⟩ <;>
      simp at hlen
    exact ⟨a, b, c, d, e, f, rfl⟩
  simp only [List.mem_cons, List.not_mem_nil, or_false, forall_eq_or_imp,
    forall_eq] at hdig
  obtain ⟨ha, hb, hc, hd, he, hf⟩ := hdig
  have ha' : a ≠ '#' := isHexDig_ne_hash ha
  constructor
  · unfold hex_to_1000
    rw [dropWhile_hash_replicate]
    simp [List.dropWhile_cons]
  · rw [hex_to_1000_hash_cons ha']
    exact ⟨(scale255to1000 (16 * hexDigVal a + hexDigVal b),
        scale255to1000 (16 * hexDigVal c + hexDigVal d),
        scale255to1000 (16 * hexDigVal e + hexDigVal f)),
      by simp [hexBody, pyIntHex2_hex ha hb, pyIntHex2_hex hc hd,
        pyIntHex2_hex he hf]⟩

/-- Witness for C10: two leading `#` characters on `ff0000` behave like
`#ff0000`, which is accepted. -/
theorem c10_lstrip_witness :
    hex_to_1000 (List.replicate 2 '#' ++ "ff0000".toList) =
      hex_to_1000 ('#' :: "ff0000".toList) ∧
    ∃ t, hex_to_1000 ('#' :: "ff0000".toList) = .ok t :=
  c10_lstrip 2 "ff0000".toList (by decide) (by decide)

/-! ### History store -/

/-- Source: the Enter handler's history update (main.py lines 273–276):
`if not history or history[0] != hex: history.insert(0, hex)` followed by
the unconditional truncation `history = history[:HISTORY_MAX]`. -/
def histInsert (hx : List Char) (history : List (List Char)) : List (List Char) :=
  (if history = [] ∨ history.head? ≠ some hx then hx :: history else history).take
    HISTORY_MAX

/-- Folding a sequence of submissions through the Enter handler's history
update, oldest first, starting from the empty history. -/
def insertAll (vs : List (List Char)) : List (List Char) :=
  vs.foldl (fun h v => histInsert v h) []

theorem histInsert_cond (hx : List Char) (h : List (List Char))
    (hne : h.head? ≠ some hx) : histInsert hx h = (hx :: h).take HISTORY_MAX := by
  unfold histInsert
  rw [if_pos (Or.inr hne)]

theorem histInsert_noop (hx : List Char) (h : List (List Char))
    (heq : h.head? = some hx) (hlen : h.length ≤ HISTORY_MAX) :
    histInsert hx h = h := by
  unfold histInsert
  rw [if_neg, List.take_of_length_le hlen]
  push_neg
  exact ⟨by rintro rfl; simp at heq, by simp [heq]⟩

theorem insertAll_go (vs : List (List Char)) :
    ∀ acc : List (List Char), vs.Chain' (· ≠ ·) →
      (∀ v, vs.head? = some v → acc.head? ≠ some v) →
      acc.length ≤ HISTORY_MAX →
      vs.foldl (fun h v => histInsert v h) acc = (vs.reverse ++ acc).take HISTORY_MAX := by
  induction vs with
  | nil =>
    intro acc _ _ hlen
    simp [List.take_of_length_le hlen]
  | cons v rest ih =>
    intro acc hch hhd hlen
    have hne : acc.head? ≠ some v := hhd v rfl
    have hsplit := List.chain'_cons'.mp hch
    rw [List.foldl_cons, histInsert_cond _ _ hne]
    rw [ih ((v :: acc).take HISTORY_MAX) hsplit.2 ?hd ?len]
    case hd =>
      intro w hw
      have hvw : v ≠ w := hsplit.1 w hw
      rw [show HISTORY_MAX = 199 + 1 from rfl, List.take_succ_cons]
      simp [hvw]
    case len =>
      simp [List.length_take]
    have key : ∀ A B : List (List Char),
        (A ++ B.take HISTORY_MAX).take HISTORY_MAX = (A ++ B).take HISTORY_MAX := by
      intro A B
      rw [List.take_append_eq_append_take, List.take_append_eq_append_take,
        List.take_take, min_eq_left (by omega)]
    rw [key]
    simp [List.reverse_cons, List.append_assoc]

theorem insertAll_eq (vs : List (List Char)) (hch : vs.Chain' (· ≠ ·)) :
    insertAll vs = vs.reverse.take HISTORY_MAX := by
  unfold insertAll
  rw [insertAll_go vs [] hch (by simp) (by simp [HISTORY_MAX])]
  simp

/-- Claim C3: a submission is prepended (and the store truncated to 200)
exactly when the store is empty or its top entry differs; otherwise it is
a no-op.  Consequently inserting the same value twice gives length 1,
inserting N pairwise-distinct values (N + 1 ≤ 200) and then a duplicate of
the oldest one grows the length to N + 1, and inserting 205 distinct
values keeps exactly the 200 most recent (the oldest 5 dropped). -/
theorem c3_insert :
    (∀ (hx : List Char) (h : List (List Char)), h.head? ≠ some hx →
        histInsert hx h = (hx :: h).take HISTORY_MAX) ∧
    (∀ (hx : List Char) (h : List (List Char)), h.head? = some hx →
        h.length ≤ HISTORY_MAX → histInsert hx h = h) ∧
    (∀ hx : List Char, (histInsert hx (histInsert hx [])).length = 1) ∧
    (∀ (vs : List (List Char)) (v0 : List Char), vs.Nodup → 2 ≤ vs.length →
        vs.length + 1 ≤ HISTORY_MAX → vs.head? = some v0 →
        (histInsert v0 (insertAll vs)).length = vs.length + 1) ∧
    (∀ vs : List (List Char), vs.Nodup → vs.length = 205 →
        insertAll vs = (vs.drop 5).reverse ∧ (insertAll vs).length = HISTORY_MAX) := by
  refine ⟨histInsert_cond, histInsert_noop, ?_, ?_, ?_⟩
  · intro hx
    have h1 : histInsert hx [] = [hx] := by simp [histInsert, HISTORY_MAX]
    rw [h1, histInsert_noop hx [hx] rfl (by simp [HISTORY_MAX])]
    rfl
  · intro vs v0 hnd h2 hlen hhd
    have hch : vs.Chain' (· ≠ ·) := hnd.chain'
    have hrevlen : vs.reverse.length = vs.length := by simp
    have htake : vs.reverse.take HISTORY_MAX = vs.reverse :=
      List.take_of_length_le (by omega)
    rw [insertAll_eq vs hch, htake]
    rcases vs with _ | ⟨x, rest⟩
    · simp at h2
    · have hx0 : v0 = x := by
        have := hhd
        simp at this
        exact this.symm
      subst hx0
      rcases rest with _ | ⟨y, rest'⟩
      · simp at h2
      · obtain ⟨w, hw⟩ : ∃ w, (v0 :: y :: rest').getLast? = some w := by
          rw [List.getLast?_cons_cons]
          exact Option.isSome_iff_exists.mp (by simp [List.getLast?_isSome])
        have hwmem : w ∈ y :: rest' := by
          rw [List.getLast?_cons_cons] at hw
          exact List.mem_of_mem_getLast? hw
        have hnotin : v0 ∉ y :: rest' := (List.nodup_cons.mp hnd).1
        have hne0 : w ≠ v0 := fun he => hnotin (he ▸ hwmem)
        have hhead : (v0 :: y :: rest').reverse.head? ≠ some v0 := by
          rw [List.head?_reverse, hw]
          simp [hne0]
        rw [histInsert_cond _ _ hhead, List.take_of_length_le (by
          simp at hlen ⊢; omega)]
        simp
  · intro vs hnd hlen
    have hch : vs.Chain' (· ≠ ·) := hnd.chain'
    rw [insertAll_eq vs hch]
    constructor
    · have h1 : (vs.reverse.take HISTORY_MAX).reverse = vs.drop 5 := by
        rw [List.reverse_take]
        simp [hlen, HISTORY_MAX]
      rw [← h1, List.reverse_reverse]
    · simp [List.length_take, hlen, HISTORY_MAX]

/-- Concrete 205-element pairwise-distinct history input. -/
def vs205 : List (List Char) := (List.range 205).map (fun i => [Char.ofNat (48 + i)])

/-- Witness for C3: the four hypothesis-bearing clauses evaluated at
concrete histories. -/
theorem c3_insert_witness :
    histInsert ['d'] [['a']] = ((['d'] :: [['a']]).take HISTORY_MAX) ∧
    histInsert ['a'] [['a'], ['b']] = [['a'], ['b']] ∧
    (histInsert ['a'] (insertAll [['a'], ['b'], ['c']])).length = 4 ∧
    (insertAll vs205 = (vs205.drop 5).reverse ∧ (insertAll vs205).length = HISTORY_MAX) := by
  refine ⟨c3_insert.1 _ _ (by decide), c3_insert.2.1 _ _ (by decide) (by decide),
    c3_insert.2.2.2.1 _ _ (by decide) (by decide) (by decide) (by decide),
    c3_insert.2.2.2.2 vs205 (by decide) (by decide)⟩

/-! ### History persistence (load) -/

/-- JSON values as produced by `json.load`. -/
inductive Json where
  | null
  | bool (b : Bool)
  | num (n : ℤ)
  | str (s : List Char)
  | arr (elems : List Json)
  | obj (fields : List (List Char × Json))

/-- Whether a JSON value is a string. -/
def Json.isStr : Json → Bool
  | .str _ => true
  | _ => false

/-- The observable state of the history file, as `load_history_from_file`
distinguishes it: the path may be absent (`os.path.exists` false), the
file may fail to open or parse (the `except` branch), or it parses to a
JSON value. -/
inductive FileState where
  | missing
  | unreadable
  | parsed (j : Json)

/-- The status messages of `load_history_from_file`, by constructor:
`notFound` is "Файл ... не найден", `wrongFormat` is "Неверный формат
файла истории", `loadError` is "Ошибка загрузки: ...", `loaded` is
"История загружена из ...". -/
inductive LoadMsg where
  | notFound
  | wrongFormat
  | loadError
  | loaded
deriving DecidableEq, Repr

/-- Source `load_history_from_file` (main.py lines 79–89): missing path →
empty list + not-found message; open/parse failure → empty list + error
message; parsed value that is not a list (`isinstance(data, list)` is the
only shape check — element types are never inspected) → empty list +
wrong-format message; parsed list → its first `HISTORY_MAX` entries in
order + success message. -/
def load_history_from_file : FileState → List Json × LoadMsg
  | .missing => ([], .notFound)
  | .unreadable => ([], .loadError)
  | .parsed j =>
    match j with
    | .arr data => (data.take HISTORY_MAX, .loaded)
    | _ => ([], .wrongFormat)

/-- Claim C5 counterexample: a parsed JSON array of non-strings is not "a
list of strings", yet it is returned with the success message instead of
the wrong-format result. -/
theorem c5_counterexample :
    load_history_from_file (.parsed (.arr [.num 7])) = ([Json.num 7], .loaded) ∧
    (Json.num 7).isStr = false ∧
    load_history_from_file (.parsed (.arr [.num 7])) ≠ ([], .wrongFormat) := by
  refine ⟨rfl, rfl, by simp [load_history_from_file]⟩

/-- Claim C5 (amended): `load` never raises (it is a total function of the
file state); a missing path yields the empty list with the not-found
message, an unreadable or unparsable file the empty list with the error
message, a parsed non-array the empty list with the wrong-format message,
and a parsed array — whatever the element types — its first 200 entries in
array order with the success message. -/
theorem c5_load :
    load_history_from_file .missing = ([], .notFound) ∧
    load_history_from_file .unreadable = ([], .loadError) ∧
    (∀ j : Json, (∀ l, j ≠ .arr l) →
        load_history_from_file (.parsed j) = ([], .wrongFormat)) ∧
    (∀ l : List Json,
        load_history_from_file (.parsed (.arr l)) = (l.take HISTORY_MAX, .loaded)) := by
  refine ⟨rfl, rfl, ?_, fun l => rfl⟩
  intro j hj
  cases j with
  | arr l => exact absurd rfl (hj l)
  | _ => rfl

/-- Witness for C5: the non-array clause evaluated at a JSON object and at
a parsed array of strings. -/
theorem c5_load_witness :
    load_history_from_file (.parsed (.obj [])) = ([], .wrongFormat) ∧
    load_history_from_file (.parsed (.arr [.str "#ff0000".toList])) =
      ([Json.str "#ff0000".toList], .loaded) := by
  constructor
  · exact c5_load.2.2.1 (.obj []) (fun l h => Json.noConfusion h)
  · exact c5_load.2.2.2 [.str "#ff0000".toList]

/-! ### Python string helpers used by the Enter handler -/

/-- Python `str.strip()`: remove leading and trailing whitespace. -/
def pyStrip (l : List Char) : List Char :=
  ((l.dropWhile (fun c => isPySpace c)).reverse.dropWhile (fun c => isPySpace c)).reverse

/-- Worker for `str.split()`: split on runs of whitespace, discarding
empty fields; `acc` holds the current word reversed. -/
def pyWordsGo : List Char → List Char → List (List Char)
  | acc, [] => if acc = [] then [] else [acc.reverse]
  | acc, c :: rest =>
    if isPySpace c then
      if acc = [] then pyWordsGo [] rest else acc.reverse :: pyWordsGo [] rest
    else pyWordsGo (c :: acc) rest

/-- Python `str.split()` with no arguments. -/
def pyWords (l : List Char) : List (List Char) := pyWordsGo [] l

/-- Digit run of a base-10 integer literal after its first digit: single
underscores are allowed between digits only. -/
def pyDecGo : ℤ → List Char → Option ℤ
  | n, [] => some n
  | n, '_' :: c :: rest =>
    if c.isDigit then pyDecGo (10 * n + ((c.toNat : ℤ) - 48)) rest else none
  | _, ['_'] => none
  | n, c :: rest =>
    if c.isDigit then pyDecGo (10 * n + ((c.toNat : ℤ) - 48)) rest else none

/-- Nonempty ASCII digit run (undercores between digits allowed),
evaluated base 10. -/
def pyDecDigits : List Char → Option ℤ
  | [] => none
  | c :: rest => if c.isDigit then pyDecGo ((c.toNat : ℤ) - 48) rest else none

/-- Python `int(token)` (base 10) on a token produced by `str.split()` —
such tokens are nonempty and contain no whitespace, so only an optional
sign and a digit run remain.  (CPython would also accept non-ASCII
decimal digits; the interactive input path only produces ASCII 32–126.) -/
def pyIntDec : List Char → Option ℤ
  | '+' :: rest => pyDecDigits rest
  | '-' :: rest => (pyDecDigits rest).map (fun z => -z)
  | t => pyDecDigits t

/-! ### Interaction loop state -/

/-- The `ValueError`s the Enter handler's `try` block can catch:
a codec error from `hex_to_1000` / `rgb1000_to_hex`, a token rejected by
`int()`, or "Нужно 3 числа (0–1000) или HEX" when the count is wrong. -/
inductive SubmitErr where
  | codec (e : CodecErr)
  | badIntToken
  | notThreeNumbers
deriving DecidableEq, Repr

/-- The status messages the key handlers can set, one constructor per
assignment site of `message` in `main`: `blank` is `""`, `vvodPustoy` is
"Ввод пустой", `hexToRgb`/`rgbToHex` are the success messages with their
interpolated values, `oshibka` is `f"Ошибка: {e}"`, the copy constructors
are the four clipboard messages, `saveResult` carries
`save_history_to_file`'s flag, `loadResult` a `load_history_from_file`
message, `istoriyaOchishchena` is "История очищена", and `globalErr` is
`f"Global error: {e}"` from the loop's outer `except`. -/
inductive Msg where
  | blank
  | vvodPustoy
  | hexToRgb (hx : List Char) (r g b : ℤ)
  | rgbToHex (r g b : ℤ) (hx : List Char)
  | oshibka (e : SubmitErr)
  | skopirovano (s : List Char)
  | copyFailed
  | clipUnavailable
  | nothingToCopy
  | saveResult (ok : Bool)
  | loadResult (m : LoadMsg)
  | istoriyaOchishchena
  | globalErr
deriving DecidableEq, Repr

/-- The mutable locals of `main`'s loop (main.py lines 118–124), plus
`panel`: the argument of the most recent `draw_color_panel` call (`none`
models `draw_color_panel(None)`, the cleared panel).  `message_attr`
records the `curses.color_pair` index (1 normal, 2 error, 3 success). -/
structure LoopState where
  current_input : List Char
  message : Msg
  message_attr : ℕ
  last_hex : Option (List Char)
  history : List (List Char)
  history_index : Option ℕ
  history_view_start : ℤ
  panel : Option (List Char)
deriving DecidableEq, Repr

/-- The render-phase clamp of `history_view_start` (main.py lines
204–207): two sequential corrections, below by 0 and above by
`max(0, len(history) - available_lines)`. -/
def clampView (s : LoopState) : LoopState :=
  let m : ℤ := max 0 ((s.history.length : ℤ) - available_lines)
  let v1 : ℤ := if s.history_view_start < 0 then 0 else s.history_view_start
  {s with history_view_start := if v1 > m then m else v1}

/-- The try-block of the Enter handler (main.py lines 255–270) on the
stripped input: a leading `#` selects hex parsing (the source calls
`hex_to_1000` twice on the same string; being pure, once suffices),
otherwise the input is split into tokens, each parsed by `int()`, exactly
three are required, and `rgb1000_to_hex` converts them.  Returns the hex
string, the triplet and whether the input was hex. -/
def enterCompute (t : List Char) : Except SubmitErr (List Char × ℤ × ℤ × ℤ × Bool) :=
  if t.head? = some '#' then
    match hex_to_1000 t with
    | .ok (r, g, b) => .ok (t, r, g, b, true)
    | .error e => .error (.codec e)
  else
    match (pyWords t).mapM pyIntDec with
    | none => .error .badIntToken
    | some parts =>
      match parts with
      | [r, g, b] =>
        match rgb1000_to_hex r g b with
        | .ok hx => .ok (hx, r, g, b, false)
        | .error e => .error (.codec e)
      | _ => .error .notThreeNumbers

/-- The Enter handler (main.py lines 249–286): blank input sets the
"Ввод пустой" error and leaves the buffer; otherwise the try block runs —
on failure only the message changes and the `finally` clears the buffer;
on success the message, `last_hex`, history (prepend-if-new + truncate),
cursor, view and color panel are updated and the buffer is cleared. -/
def handleEnter (s : LoopState) : LoopState :=
  if pyStrip s.current_input = [] then {s with message := .vvodPustoy, message_attr := 2}
  else
    match enterCompute (pyStrip s.current_input) with
    | .error e => {s with message := .oshibka e, message_attr := 2, current_input := []}
    | .ok (hx, r, g, b, wasHex) =>
      {s with message := if wasHex then .hexToRgb hx r g b else .rgbToHex r g b hx,
              message_attr := 3,
              last_hex := some hx,
              history := histInsert hx s.history,
              history_index := none,
              history_view_start := 0,
              panel := some hx,
              current_input := []}

/-- The Backspace handler (main.py lines 289–293). -/
def handleBackspace (s : LoopState) : LoopState :=
  {s with current_input := s.current_input.dropLast, history_index := none,
          message := .blank, message_attr := 1}

/-- One view adjustment shared by the two arrow handlers (main.py lines
305–308 and 326–329): pull the view up to the cursor, then push it down
so the cursor stays within the visible page. -/
def adjustView (idx : ℕ) (v : ℤ) : ℤ :=
  let v1 : ℤ := if (idx : ℤ) < v then (idx : ℤ) else v
  if (idx : ℤ) ≥ v1 + available_lines then (idx : ℤ) - available_lines + 1 else v1

/-- The KEY_DOWN handler (main.py lines 296–310): with a non-empty
history, start at 0 or advance clamped to the last index, copy the entry
into the input, keep it visible, redraw the panel. -/
def handleDown (s : LoopState) : LoopState :=
  if s.history = [] then s
  else
    let idx : ℕ :=
      match s.history_index with
      | none => 0
      | some i => min (s.history.length - 1) (i + 1)
    let input := s.history.getD idx []
    {s with history_index := some idx, current_input := input,
            history_view_start := adjustView idx s.history_view_start,
            panel := some input}

/-- The KEY_UP handler (main.py lines 312–331): with a non-empty history
and an active cursor, decrementing below 0 deactivates the cursor, clears
the input and the panel; otherwise the cursor moves to the newer entry.
If the decremented index were out of range, `history[history_index]`
(line 325) would raise after the decrement took effect, and the loop's
outer `except` (lines 429–432) would set the error message and clear the
input — the view would stay untouched. -/
def handleUp (s : LoopState) : LoopState :=
  if s.history = [] then s
  else
    match s.history_index with
    | none => s
    | some i =>
      if i = 0 then
        {s with history_index := none, current_input := [], panel := none}
      else
        let idx := i - 1
        if h : idx < s.history.length then
          let input := s.history.get ⟨idx, h⟩
          {s with history_index := some idx, current_input := input,
                  history_view_start := adjustView idx s.history_view_start,
                  panel := some input}
        else
          {s with history_index := some idx, current_input := [],
                  message := .globalErr, message_attr := 2}

/-- The new `history_view_start` computed by the PageUp/PageDown handler
(main.py lines 337–356): `direction` from the key and `SWAP_PAGE_KEYS`,
`step = available_lines if available_lines > 0 else 1`, and
`new_start = max(0, min(view + direction * step,
max(0, len(history) - available_lines)))`. -/
def pageNewStart (s : LoopState) (is_ppage : Bool) : ℤ :=
  max 0 (min (s.history_view_start +
      (if SWAP_PAGE_KEYS then (if is_ppage then (1 : ℤ) else -1)
       else (if is_ppage then -1 else 1)) *
      (if 0 < available_lines then available_lines else 1))
    (max 0 ((s.history.length : ℤ) - available_lines)))

/-- The PageUp/PageDown handler (main.py lines 334–363): the view moves by
one page, clamped; with an active cursor in range (`0 <= history_index <
len(history)`) the panel is redrawn for the cursor's entry, otherwise
nothing else changes. -/
def handlePage (s : LoopState) (is_ppage : Bool) : LoopState :=
  {s with history_view_start := pageNewStart s is_ppage,
          panel :=
            match s.history_index with
            | some i =>
              if i < s.history.length then some (s.history.getD i []) else s.panel
            | none => s.panel}

/-- The `c` (copy) handler (main.py lines 366–387): `last_hex` if truthy,
else the stripped input when it starts with `#`; the clipboard
environment (availability, success) is part of the event. -/
def handleCopy (s : LoopState) (clipAvailable copyOk : Bool) : LoopState :=
  let stripped := pyStrip s.current_input
  let fallback : Option (List Char) :=
    if stripped.head? = some '#' then some stripped else none
  let to_copy : Option (List Char) :=
    match s.last_hex with
    | some h => if h = [] then fallback else some h
    | none => fallback
  match to_copy with
  | some tc =>
    if clipAvailable then
      if copyOk then {s with message := .skopirovano tc, message_attr := 3}
      else {s with message := .copyFailed, message_attr := 2}
    else {s with message := .clipUnavailable, message_attr := 2}
  | none => {s with message := .nothingToCopy, message_attr := 2}

/-- The `s` (save) handler (main.py lines 389–392): only the status
message changes; the outcome flag is part of the event. -/
def handleSave (s : LoopState) (ok : Bool) : LoopState :=
  {s with message := .saveResult ok, message_attr := if ok then 3 else 2}

/-- The `l` (load) handler (main.py lines 394–410) applied to a load
result (the handler never inspects element types, so it is modelled on
results whose elements are strings): `if loaded:` — only a NON-empty
result replaces the history, resets cursor and view and redraws the
panel with the first entry; an empty result (missing file, bad format, or
a successfully parsed empty array) only sets the message with the error
styling. -/
def handleLoad (s : LoopState) (loaded : List (List Char)) (kind : LoadMsg) : LoopState :=
  if loaded = [] then {s with message := .loadResult kind, message_attr := 2}
  else
    let history := loaded.take HISTORY_MAX
    {s with history := history, history_index := none, history_view_start := 0,
            message := .loadResult kind, message_attr := 3,
            panel := history.head?}

/-- The `C` (clear) handler (main.py lines 412–419). -/
def handleClear (s : LoopState) : LoopState :=
  {s with history := [], history_index := none, history_view_start := 0,
          message := .istoriyaOchishchena, message_attr := 3, panel := none}

/-- The final `else` of the dispatch (main.py lines 422–427): printable
keys (codes 32–126) are appended to the input; any other key is
ignored. -/
def handlePrintable (s : LoopState) (c : Char) : LoopState :=
  if 32 ≤ c.toNat ∧ c.toNat ≤ 126 then
    {s with current_input := s.current_input ++ [c], history_index := none,
            message := .blank, message_attr := 1}
  else s

/-- One key event, with the environment data each handler consumes
(clipboard availability/outcome, save outcome, load result). -/
inductive KeyEvent where
  | enter
  | backspace
  | down
  | up
  | page (is_ppage : Bool)
  | copyKey (clipAvailable copyOk : Bool)
  | saveKey (ok : Bool)
  | loadKey (loaded : List (List Char)) (kind : LoadMsg)
  | clearKey
  | printable (c : Char)

/-- The key dispatch of `main`'s loop body (main.py lines 249–427). -/
def handleKey (s : LoopState) : KeyEvent → LoopState
  | .enter => handleEnter s
  | .backspace => handleBackspace s
  | .down => handleDown s
  | .up => handleUp s
  | .page p => handlePage s p
  | .copyKey a b => handleCopy s a b
  | .saveKey ok => handleSave s ok
  | .loadKey l k => handleLoad s l k
  | .clearKey => handleClear s
  | .printable c => handlePrintable s c

/-- One loop iteration as it affects the state: the render phase clamps
the view (lines 204–207), then the pressed key's handler runs. -/
def loopStep (s : LoopState) (ev : KeyEvent) : LoopState :=
  handleKey (clampView s) ev

/-! ### Claims about the loop -/

/-- Claim C4 counterexample: with a non-empty in-memory history, the
LoadHistory key applied to an empty load result (here: a successfully
parsed empty array, message kind `loaded`) does NOT replace the history
and does NOT clear the color panel — both keep their previous values. -/
theorem c4_counterexample :
    (handleKey
        { current_input := [], message := .blank, message_attr := 1,
          last_hex := some "#ff0000".toList, history := ["#ff0000".toList],
          history_index := none, history_view_start := 0,
          panel := some "#ff0000".toList }
        (.loadKey [] .loaded)).history = ["#ff0000".toList] ∧
    (handleKey
        { current_input := [], message := .blank, message_attr := 1,
          last_hex := some "#ff0000".toList, history := ["#ff0000".toList],
          history_index := none, history_view_start := 0,
          panel := some "#ff0000".toList }
        (.loadKey [] .loaded)).history ≠ [] ∧
    (handleKey
        { current_input := [], message := .blank, message_attr := 1,
          last_hex := some "#ff0000".toList, history := ["#ff0000".toList],
          history_index := none, history_view_start := 0,
          panel := some "#ff0000".toList }
        (.loadKey [] .loaded)).panel = some "#ff0000".toList := by
  refine ⟨rfl, by simp [handleKey, handleLoad], rfl⟩

/-- Claim C4 (amended): the LoadHistory key replaces the in-memory
history (no merge), resets cursor and view and redraws the panel with
entry 0 only when the load result is non-empty; when the result is empty
— including a successfully parsed empty array — history, cursor, view and
panel are left unchanged and only the status message is set, with the
error styling. -/
theorem c4_load :
    ∀ (s : LoopState) (loaded : List (List Char)) (kind : LoadMsg),
      (loaded ≠ [] → handleKey s (.loadKey loaded kind) =
        {s with history := loaded.take HISTORY_MAX, history_index := none,
                history_view_start := 0, message := .loadResult kind,
                message_attr := 3, panel := (loaded.take HISTORY_MAX).head?}) ∧
      (loaded = [] → handleKey s (.loadKey loaded kind) =
        {s with message := .loadResult kind, message_attr := 2}) := by
  intro s loaded kind
  constructor
  · intro h
    simp [handleKey, handleLoad, h]
  · intro h
    simp [handleKey, handleLoad, h]

/-- Witness for C4: a two-entry result replaces a one-entry history; an
empty result leaves the state unchanged apart from the message. -/
theorem c4_load_witness :
    handleKey
        { current_input := [], message := .blank, message_attr := 1,
          last_hex := none, history := [['x']], history_index := some 0,
          history_view_start := 0, panel := some ['x'] }
        (.loadKey [['a'], ['b']] .loaded) =
      { current_input := [], message := .loadResult .loaded, message_attr := 3,
        last_hex := none, history := ([['a'], ['b']] : List (List Char)).take HISTORY_MAX,
        history_index := none, history_view_start := 0,
        panel := (([['a'], ['b']] : List (List Char)).take HISTORY_MAX).head? } ∧
    handleKey
        { current_input := [], message := .blank, message_attr := 1,
          last_hex := none, history := [['x']], history_index := some 0,
          history_view_start := 0, panel := some ['x'] }
        (.loadKey [] .notFound) =
      { current_input := [], message := .loadResult .notFound, message_attr := 2,
        last_hex := none, history := [['x']], history_index := some 0,
        history_view_start := 0, panel := some ['x'] } := by
  exact ⟨(c4_load _ _ _).1 (by simp), (c4_load _ _ _).2 rfl⟩

/-- Claim C6: when the stripped InputBuffer is blank, Submit sets the
"Ввод пустой" error and changes nothing else (in particular the buffer is
unchanged); when it is non-blank and the try block fails, only the error
message is set — history, cursor, view, last-hex and panel stay as they
were — and the buffer is cleared; on success the buffer is cleared too. -/
theorem c6_submit :
    ∀ s : LoopState,
      (pyStrip s.current_input = [] →
        handleKey s .enter = {s with message := .vvodPustoy, message_attr := 2}) ∧
      (∀ e, pyStrip s.current_input ≠ [] →
        enterCompute (pyStrip s.current_input) = .error e →
        handleKey s .enter =
          {s with message := .oshibka e, message_attr := 2, current_input := []}) ∧
      (∀ res, pyStrip s.current_input ≠ [] →
        enterCompute (pyStrip s.current_input) = .ok res →
        (handleKey s .enter).current_input = []) := by
  intro s
  refine ⟨?_, ?_, ?_⟩
  · intro h
    simp [handleKey, handleEnter, h]
  · intro e hne he
    simp [handleKey, handleEnter, hne, he]
  · intro res hne hok
    obtain ⟨hx, r, g, b, w⟩ := res
    simp [handleKey, handleEnter, hne, hok]

/-- Witness for C6: blank input (two spaces), a failing input (`#12`),
and a succeeding input (`#ff0000`). -/
theorem c6_submit_witness :
    handleKey
        { current_input := "  ".toList, message := .blank, message_attr := 1,
          last_hex := none, history := [], history_index := none,
          history_view_start := 0, panel := none } .enter =
      { current_input := "  ".toList, message := .vvodPustoy, message_attr := 2,
        last_hex := none, history := [], history_index := none,
        history_view_start := 0, panel := none } ∧
    handleKey
        { current_input := "#12".toList, message := .blank, message_attr := 1,
          last_hex := none, history := [], history_index := none,
          history_view_start := 0, panel := none } .enter =
      { current_input := [], message := .oshibka (.codec .invalidFormat),
        message_attr := 2, last_hex := none, history := [], history_index := none,
        history_view_start := 0, panel := none } ∧
    (handleKey
        { current_input := "#ff0000".toList, message := .blank, message_attr := 1,
          last_hex := none, history := [], history_index := none,
          history_view_start := 0, panel := none } .enter).current_input = [] := by
  refine ⟨(c6_submit _).1 (by decide),
    (c6_submit _).2.1 (.codec .invalidFormat) (by decide) (by decide),
    (c6_submit _).2.2 ("#ff0000".toList, 1000, 0, 0, true) (by decide) (by decide)⟩

/-- Claim C9: with a non-empty history, one NavigateOlder (down) step
from no cursor sets the cursor to 0 and copies `history[0]` into the
input; from cursor i it advances to `min(len-1, i+1)` (clamping at the
last index); one NavigateNewer (up) step from cursor 0 resets the cursor
and clears the input. -/
theorem c9_navigation :
    ∀ s : LoopState, s.history ≠ [] →
      (s.history_index = none →
        (handleKey s .down).history_index = some 0 ∧
        (handleKey s .down).current_input = s.history.headD []) ∧
      (∀ i, s.history_index = some i →
        (handleKey s .down).history_index =
          some (min (s.history.length - 1) (i + 1))) ∧
      (s.history_index = some 0 →
        (handleKey s .up).history_index = none ∧
        (handleKey s .up).current_input = []) := by
  intro s hne
  refine ⟨?_, ?_, ?_⟩
  · intro h
    rcases hh : s.history with _ | ⟨x, rest⟩
    · exact absurd hh hne
    · simp [handleKey, handleDown, hh, h]
  · intro i h
    simp [handleKey, handleDown, hne, h]
  · intro h
    simp [handleKey, handleUp, hne, h]

/-- Witness for C9: a two-entry history, stepping down from no cursor,
down from cursor 1 (clamped), and up from cursor 0. -/
theorem c9_navigation_witness :
    ((handleKey
        { current_input := [], message := .blank, message_attr := 1,
          last_hex := none, history := [['a'], ['b']], history_index := none,
          history_view_start := 0, panel := none } .down).history_index = some 0 ∧
      (handleKey
        { current_input := [], message := .blank, message_attr := 1,
          last_hex := none, history := [['a'], ['b']], history_index := none,
          history_view_start := 0, panel := none } .down).current_input =
        ([['a'], ['b']] : List (List Char)).headD []) ∧
    (handleKey
        { current_input := [], message := .blank, message_attr := 1,
          last_hex := none, history := [['a'], ['b']], history_index := some 1,
          history_view_start := 0, panel := none } .down).history_index =
      some (min (([['a'], ['b']] : List (List Char)).length - 1) (1 + 1)) ∧
    ((handleKey
        { current_input := [], message := .blank, message_attr := 1,
          last_hex := none, history := [['a'], ['b']], history_index := some 0,
          history_view_start := 0, panel := none } .up).history_index = none ∧
      (handleKey
        { current_input := [], message := .blank, message_attr := 1,
          last_hex := none, history := [['a'], ['b']], history_index := some 0,
          history_view_start := 0, panel := none } .up).current_input = []) := by
  refine ⟨(c9_navigation _ (by decide)).1 rfl,
    (c9_navigation _ (by decide)).2.1 1 rfl,
    (c9_navigation _ (by decide)).2.2 rfl⟩

/-! ### The view-window invariant (C8) -/

/-- The ViewWindow invariant: `0 ≤ view_start ≤ max(0, len(history) -
available_lines)`. -/
def viewOK (s : LoopState) : Prop :=
  0 ≤ s.history_view_start ∧
    s.history_view_start ≤ max 0 ((s.history.length : ℤ) - available_lines)

theorem available_lines_eq : available_lines = 3 := rfl

theorem clampView_viewOK (s : LoopState) : viewOK (clampView s) := by
  simp only [viewOK, clampView, available_lines_eq]
  split_ifs <;> constructor <;> omega

theorem adjustView_bounds {idx : ℕ} {v L : ℤ} (h1 : (idx : ℤ) ≤ L - 1)
    (h0 : 0 ≤ v) (hM : v ≤ max 0 (L - available_lines)) :
    0 ≤ adjustView idx v ∧ adjustView idx v ≤ max 0 (L - available_lines) := by
  simp only [adjustView, available_lines_eq] at *
  split_ifs <;> constructor <;> omega

theorem handleEnter_viewOK (s : LoopState) (h : viewOK s) :
    viewOK (handleEnter s) := by
  unfold handleEnter
  split_ifs with ht
  · exact h
  · rcases he : enterCompute (pyStrip s.current_input) with e | ⟨hx, r, g, b, w⟩
    · exact h
    · exact ⟨le_refl 0, le_max_left 0 _⟩

theorem handleDown_viewOK (s : LoopState) (h : viewOK s) :
    viewOK (handleDown s) := by
  unfold handleDown
  split_ifs with hne
  · exact h
  · have hlen : s.history.length ≠ 0 := by
      simpa [List.length_eq_zero] using hne
    rcases hidx : s.history_index with _ | i <;> simp only [hidx, viewOK] at h ⊢
    · exact adjustView_bounds (by omega) h.1 h.2
    · exact adjustView_bounds (by omega) h.1 h.2

theorem handleUp_viewOK (s : LoopState) (h : viewOK s) :
    viewOK (handleUp s) := by
  unfold handleUp
  split_ifs with hne
  · exact h
  · split
    · exact h
    · rename_i i hidx
      split_ifs with hz
      · exact h
      · by_cases hlt : i - 1 < s.history.length
        · simp only [dif_pos hlt, viewOK] at h ⊢
          exact adjustView_bounds (by omega) h.1 h.2
        · simp only [dif_neg hlt]
          exact h

theorem handlePage_viewOK (s : LoopState) (p : Bool) :
    viewOK (handlePage s p) := by
  simp only [viewOK, handlePage, pageNewStart]
  split_ifs <;> constructor <;> omega

theorem handleCopy_viewOK (s : LoopState) (a b : Bool) (h : viewOK s) :
    viewOK (handleCopy s a b) := by
  unfold handleCopy
  rcases s.last_hex with _ | hh <;> dsimp only [] <;> split_ifs <;> exact h

theorem handleLoad_viewOK (s : LoopState) (l : List (List Char)) (k : LoadMsg)
    (h : viewOK s) : viewOK (handleLoad s l k) := by
  unfold handleLoad
  split_ifs with hl
  · exact h
  · exact ⟨le_refl 0, le_max_left 0 _⟩

theorem handleClear_viewOK (s : LoopState) : viewOK (handleClear s) := by
  exact ⟨le_refl 0, le_max_left 0 _⟩

theorem handlePrintable_viewOK (s : LoopState) (c : Char) (h : viewOK s) :
    viewOK (handlePrintable s c) := by
  unfold handlePrintable
  split_ifs <;> exact h

/-- Claim C8: after every key handler — run, as in the loop, on a state
whose view the render phase has just clamped — `history_view_start`
satisfies `0 ≤ view ≤ max(0, len(history) - available_lines)`.  This
covers submit, navigation, page scroll, load and clear as well as the
handlers that do not touch the view. -/
theorem c8_view_invariant :
    ∀ (s : LoopState) (ev : KeyEvent),
      0 ≤ (loopStep s ev).history_view_start ∧
      (loopStep s ev).history_view_start ≤
        max 0 (((loopStep s ev).history.length : ℤ) - available_lines) := by
  intro s ev
  have h : viewOK (clampView s) := clampView_viewOK s
  show viewOK (loopStep s ev)
  unfold loopStep
  cases ev with
  | enter => exact handleEnter_viewOK _ h
  | backspace => exact h
  | down => exact handleDown_viewOK _ h
  | up => exact handleUp_viewOK _ h
  | page p => exact handlePage_viewOK _ p
  | copyKey a b => exact handleCopy_viewOK _ a b h
  | saveKey ok => exact h
  | loadKey l k => exact handleLoad_viewOK _ l k h
  | clearKey => exact handleClear_viewOK _
  | printable c => exact handlePrintable_viewOK _ c h

end Tintui
